import Mathlib

/-!
Verification of the native privilege-escalation helper in
`src/native/src/api.rs` against its natural-language specification.

Embedding conventions:
* Rust `String` / `&str` values are `List Char` (Rust chars are Unicode
  scalar values, exactly Lean's `Char`); raw process output (`Vec<u8>`) is
  `List Nat` with each entry a byte.
* A Rust computation that may `panic!`/`expect` is modelled by `Outcome`,
  which separates a returned `anyhow::Error` (constructor `err`, carrying
  the error message) from a process abort (constructor `fatal`).
* External processes are modelled by environment records: the outcome of
  `Command::output()` is `Option ProcOutput` (`none` = the spawn itself
  failed), and the sudo path's world also tracks the content of the fixed
  temporary file `/tmp/result.txt`.
* The dynamic message of Rust's `FromUtf8Error` is abstracted to the fixed
  string `utf8ErrMsg`; no code in `api.rs` inspects that message.
-/

/-- Result of a Rust computation as observed by the host application: a
success value, a returned `anyhow` error carrying its message, or a process
abort raised by `expect`/panic. -/
inductive Outcome (α : Type) where
  | ok : α → Outcome α
  | err : String → Outcome α
  | fatal : String → Outcome α
  deriving DecidableEq

/-- `true` exactly on the abort constructor of `Outcome`. -/
def Outcome.isFatal {α : Type} : Outcome α → Bool
  | .fatal _ => true
  | _ => false

/-- `true` exactly on the success constructor of `Outcome`. -/
def Outcome.isOk {α : Type} : Outcome α → Bool
  | .ok _ => true
  | _ => false

/-- A UTF-8 continuation byte: `0x80 ≤ b ≤ 0xBF`. -/
def utf8Cont (b : Nat) : Bool :=
  decide (0x80 ≤ b) && decide (b ≤ 0xBF)

/-- Validity of the two trailing bytes of a three-byte UTF-8 sequence with
leading byte `b` (which ranges over `0xE0..0xEF`): `0xE0` excludes overlong
encodings, `0xED` excludes surrogates. -/
def utf8Three (b b1 b2 : Nat) : Bool :=
  (if b == 0xE0 then decide (0xA0 ≤ b1) && decide (b1 ≤ 0xBF)
   else if b == 0xED then decide (0x80 ≤ b1) && decide (b1 ≤ 0x9F)
   else utf8Cont b1) && utf8Cont b2

/-- Validity of the three trailing bytes of a four-byte UTF-8 sequence with
leading byte `b` (which ranges over `0xF0..0xF4`): `0xF0` excludes overlong
encodings, `0xF4` caps the scalar value at `U+10FFFF`. -/
def utf8Four (b b1 b2 b3 : Nat) : Bool :=
  (if b == 0xF0 then decide (0x90 ≤ b1) && decide (b1 ≤ 0xBF)
   else if b == 0xF4 then decide (0x80 ≤ b1) && decide (b1 ≤ 0x8F)
   else utf8Cont b1) && utf8Cont b2 && utf8Cont b3

/-- Rust `String::from_utf8`, embedded on byte lists: decodes a strict UTF-8
byte sequence into its characters, rejecting overlong encodings, surrogates
and scalar values above `U+10FFFF`, and returns `none` on any invalid
sequence (Rust returns `Err(FromUtf8Error)` there). -/
def from_utf8 : List Nat → Option (List Char)
  | [] => some []
  | b :: bs =>
    if b < 0x80 then
      (from_utf8 bs).map (fun cs => Char.ofNat b :: cs)
    else if b < 0xC2 then none
    else if b ≤ 0xDF then
      match bs with
      | b1 :: bs1 =>
        if utf8Cont b1 then
          (from_utf8 bs1).map
            (fun cs => Char.ofNat ((b - 0xC0) * 0x40 + (b1 - 0x80)) :: cs)
        else none
      | [] => none
    else if b ≤ 0xEF then
      match bs with
      | b1 :: b2 :: bs2 =>
        if utf8Three b b1 b2 then
          (from_utf8 bs2).map
            (fun cs =>
              Char.ofNat ((b - 0xE0) * 0x1000 + (b1 - 0x80) * 0x40 + (b2 - 0x80)) :: cs)
        else none
      | _ => none
    else if b ≤ 0xF4 then
      match bs with
      | b1 :: b2 :: b3 :: bs3 =>
        if utf8Four b b1 b2 b3 then
          (from_utf8 bs3).map
            (fun cs =>
              Char.ofNat
                ((b - 0xF0) * 0x40000 + (b1 - 0x80) * 0x1000 +
                  (b2 - 0x80) * 0x40 + (b3 - 0x80)) :: cs)
        else none
      | _ => none
    else none

/-- Abstracted message of Rust's `FromUtf8Error` (converted to `anyhow` by
the `?` operator in `PkexecLsMethod::execute`). -/
def utf8ErrMsg : String := "invalid utf-8 sequence"

/-- Closes off the line accumulated (in reverse) by `linesAux` when a `'\n'`
terminator is reached: a carriage return immediately before the terminator
is stripped, mirroring Rust `str::lines` treating `"\r\n"` as one line
ending. -/
def finishLine (acc : List Char) : List Char :=
  if acc.head? = some '\r' then acc.tail.reverse else acc.reverse

/-- Worker for `rustLines`: walks the text, accumulating the current line in
reverse in `acc`; a final non-empty line without a terminator is kept as is
(its bare trailing `'\r'`, if any, is not stripped), and a trailing line
terminator produces no extra empty line — exactly Rust `str::lines`. -/
def linesAux : List Char → List Char → List (List Char)
  | [], acc => if acc.isEmpty then [] else [acc.reverse]
  | c :: cs, acc =>
    if c = '\n' then finishLine acc :: linesAux cs []
    else linesAux cs (c :: acc)

/-- Rust `str::lines`, embedded on character lists: splits at `"\n"` or
`"\r\n"`, the final line ending being optional. -/
def rustLines (s : List Char) : List (List Char) :=
  linesAux s []

/-- A raw output text consisting of exactly the given lines, each terminated
by a newline. -/
def joinLines (ls : List (List Char)) : List Char :=
  (ls.map (fun l => l ++ ['\n'])).flatten

/-- Captured outcome of a finished external process, as used by `api.rs`:
the `status.success()` flag and the raw bytes of standard output. -/
structure ProcOutput where
  statusSuccess : Bool
  stdout : List Nat

/-- Environment of `PkexecLsMethod::execute`: the result of
`Command::new("pkexec").arg("ls").arg("-la").arg("/root").output()`, where
`none` means the process could not be spawned at all. -/
structure PkexecEnv where
  spawn : Option ProcOutput

/-- The argv of the external process run by the passwordless strategy. -/
def pkexecArgv : List (List Char) :=
  ["pkexec".data, "ls".data, "-la".data, "/root".data]

/-- `PkexecLsMethod::execute` (api.rs lines 75–96): spawn failure yields the
pkexec-method error; a run with non-zero status yields "Permission Denied";
a zero-status run decodes stdout (the `?` on `String::from_utf8` returns the
decode error) and on success returns its lines. -/
def pkexecExecute (env : PkexecEnv) : Outcome (List (List Char)) :=
  match env.spawn with
  | some output =>
    if output.statusSuccess then
      match from_utf8 output.stdout with
      | some s => .ok (rustLines s)
      | none => .err utf8ErrMsg
    else .err "Permission Denied"
  | none => .err "Failed to elevate privileges with pkexec method."

/-- The strategy vector built by `ls_with_polkit` (api.rs line 125):
exactly one method, the pkexec one. -/
def methods : List (PkexecEnv → Outcome (List (List Char))) :=
  [pkexecExecute]

/-- The strategy loop of `ls_with_polkit` (api.rs lines 128–135): the first
`Ok` is returned immediately, an `Err` moves on to the next method, and the
exhausted list yields the aggregated polkit failure. -/
def lsLoop (env : PkexecEnv) :
    List (PkexecEnv → Outcome (List (List Char))) → Outcome (List (List Char))
  | [] => .err "Failed to elevate privileges with polkit."
  | m :: rest =>
    match m env with
    | .ok r => .ok r
    | .err _ => lsLoop env rest
    | .fatal s => .fatal s

/-- `ls_with_polkit` (api.rs lines 123–136): runs the strategy loop over
`methods`. -/
def ls_with_polkit (env : PkexecEnv) : Outcome (List (List Char)) :=
  lsLoop env methods

/-- Outcome of the spawned `sh -c` pipeline of the sudo strategy: the
overall `status.success()` flag, and the bytes left in `/tmp/result.txt` by
the redirection (`none` when the file is absent). -/
structure SudoSpawn where
  statusSuccess : Bool
  resultFile : Option (List Nat)

/-- World of `SudoLsMethod::execute`: `sh` maps the command string handed to
`sh -c` to its spawn outcome (`none` = the shell itself could not be
spawned), and `preFile` is the content of `/tmp/result.txt` before the
call. -/
structure SudoWorld where
  sh : List Char → Option SudoSpawn
  preFile : Option (List Nat)

/-- The first `format!` of `SudoLsMethod::execute` (api.rs line 102): the
text "echo " followed by the password, verbatim, with no quoting, no
validation and no trimming. -/
def echo_cmd (password : List Char) : List Char :=
  "echo ".data ++ password

/-- The second `format!` of `SudoLsMethod::execute` (api.rs lines 105–108):
the full pipeline string handed to `sh -c`. -/
def sudoCommand (password : List Char) : List Char :=
  echo_cmd password ++ " | sudo -S ls -la /root > /tmp/result.txt".data

/-- Rust `fs::read_to_string("/tmp/result.txt")` on a modelled file state:
fails (`none`) when the file is absent or its bytes are not valid UTF-8. -/
def read_to_string (file : Option (List Nat)) : Option (List Char) :=
  file.bind from_utf8

/-- The part of `SudoLsMethod::execute` after the spawn (api.rs
lines 103–119), paired with the resulting file state of `/tmp/result.txt`:
a failed spawn aborts via `expect` (file state untouched); a zero-status
pipeline reads the temporary file — aborting via `expect` when the read
fails — and returns its lines; a non-zero-status pipeline returns the
"Password required" error. No branch removes the file. -/
def sudoAfterSpawn (spawned : Option SudoSpawn) (pre : Option (List Nat)) :
    Outcome (List (List Char)) × Option (List Nat) :=
  match spawned with
  | none => (.fatal "Failed to elevate privileges with sudo.", pre)
  | some sp =>
    if sp.statusSuccess then
      match read_to_string sp.resultFile with
      | some s => (.ok (rustLines s), sp.resultFile)
      | none => (.fatal "Failed to read result file", sp.resultFile)
    else (.err "Password required", sp.resultFile)

/-- `SudoLsMethod::execute` (api.rs lines 99–119): builds the pipeline
string from the stored password and hands it to `sh -c`. -/
def sudoExecute (password : List Char) (w : SudoWorld) :
    Outcome (List (List Char)) × Option (List Nat) :=
  sudoAfterSpawn (w.sh (sudoCommand password)) w.preFile

/-- The `map_err` of `ls_with_sudo` (api.rs line 144): any returned error is
replaced by the aggregated sudo failure message; success values pass
through, and aborts are not errors, so they propagate unchanged. -/
def mapErrSudo (r : Outcome (List (List Char))) : Outcome (List (List Char)) :=
  match r with
  | .ok v => .ok v
  | .err _ => .err "Failed to elevate privileges with sudo."
  | .fatal m => .fatal m

/-- `ls_with_sudo` (api.rs lines 139–145): constructs the single sudo
strategy bound to the supplied password, executes it, and maps its error. -/
def ls_with_sudo (password : List Char) (w : SudoWorld) :
    Outcome (List (List Char)) × Option (List Nat) :=
  (mapErrSudo (sudoExecute password w).fst, (sudoExecute password w).snd)

/-- Compile-time build configuration relevant to `rust_release_mode`. -/
structure BuildConfig where
  debugAssertions : Bool

/-- `rust_release_mode` (api.rs lines 57–59): the negation of the
`debug_assertions` compiler configuration flag. -/
def rust_release_mode (c : BuildConfig) : Bool :=
  !c.debugAssertions

theorem finishLine_reverse (l : List Char) (h : l.getLast? ≠ some '\r') :
    finishLine l.reverse = l := by
  unfold finishLine
  rw [List.head?_reverse, if_neg h, List.reverse_reverse]

theorem linesAux_append (l rest : List Char) :
    ∀ acc, '\n' ∉ l →
      linesAux (l ++ '\n' :: rest) acc =
        finishLine (l.reverse ++ acc) :: linesAux rest [] := by
  induction l with
  | nil => intro acc h; simp [linesAux]
  | cons c l ih =>
    intro acc h
    have hc : c ≠ '\n' := fun hc => h (hc ▸ List.mem_cons_self c l)
    have hl : '\n' ∉ l := fun hm => h (List.mem_cons_of_mem c hm)
    simp only [List.cons_append, linesAux, if_neg hc, List.append_eq]
    rw [ih (c :: acc) hl]
    simp [List.append_assoc]

theorem rustLines_joinLines (ls : List (List Char))
    (h : ∀ l ∈ ls, '\n' ∉ l ∧ l.getLast? ≠ some '\r') :
    rustLines (joinLines ls) = ls := by
  induction ls with
  | nil => rfl
  | cons l ls ih =>
    have h1 : '\n' ∉ l := (h l (List.mem_cons_self l ls)).1
    have h2 : l.getLast? ≠ some '\r' := (h l (List.mem_cons_self l ls)).2
    have hrest : ∀ x ∈ ls, '\n' ∉ x ∧ x.getLast? ≠ some '\r' :=
      fun x hx => h x (List.mem_cons_of_mem l hx)
    have hj : joinLines (l :: ls) = l ++ '\n' :: joinLines ls := by
      simp [joinLines]
    calc rustLines (joinLines (l :: ls))
        = linesAux (l ++ '\n' :: joinLines ls) [] := by rw [rustLines, hj]
      _ = finishLine (l.reverse ++ []) :: linesAux (joinLines ls) [] :=
          linesAux_append l (joinLines ls) [] h1
      _ = l :: rustLines (joinLines ls) := by
          rw [List.append_nil, finishLine_reverse l h2, rustLines]
      _ = l :: ls := by rw [ih hrest]

/-- Claim C6: line splitting on success preserves the exact number and order of
lines. -/
theorem lines_roundTrip (ls : List (List Char))
    (h : ∀ l ∈ ls, '\n' ∉ l ∧ l.getLast? ≠ some '\r') :
    rustLines (joinLines ls) = ls ∧
    (∀ (env : PkexecEnv) (o : ProcOutput), env.spawn = some o →
      o.statusSuccess = true → from_utf8 o.stdout = some (joinLines ls) →
      pkexecExecute env = .ok ls) ∧
    (∀ (p : List Char) (w : SudoWorld) (sp : SudoSpawn),
      w.sh (sudoCommand p) = some sp → sp.statusSuccess = true →
      read_to_string sp.resultFile = some (joinLines ls) →
      (sudoExecute p w).fst = .ok ls) := by
  have hr := rustLines_joinLines ls h
  refine ⟨hr, ?_, ?_⟩
  · intro env o hsp hst hu
    simp [pkexecExecute, hsp, hst, hu, hr]
  · intro p w sp hsp hst hf
    simp [sudoExecute, sudoAfterSpawn, hsp, hst, hf, hr]

theorem lines_roundTrip_witness :
    rustLines (joinLines ["total 0".data, "drwx".data, [], "x".data]) =
      ["total 0".data, "drwx".data, [], "x".data] ∧
    pkexecExecute ⟨some ⟨true, "total 0\ndrwx\n\nx\n".data.map Char.toNat⟩⟩ =
      Outcome.ok ["total 0".data, "drwx".data, [], "x".data] := by
  have h := lines_roundTrip ["total 0".data, "drwx".data, [], "x".data] (by decide)
  exact ⟨h.1, h.2.1 ⟨some ⟨true, "total 0\ndrwx\n\nx\n".data.map Char.toNat⟩⟩
    ⟨true, "total 0\ndrwx\n\nx\n".data.map Char.toNat⟩ rfl rfl (by decide)⟩

/-- Claim C2: ls_with_polkit tries strategies in order, returns first success
immediately, aggregated failure otherwise. -/
theorem polkit_first_success (env : PkexecEnv) :
    (∀ v, pkexecExecute env = .ok v → ls_with_polkit env = .ok v) ∧
    (∀ (m : PkexecEnv → Outcome (List (List Char))) rest v,
      m env = .ok v → lsLoop env (m :: rest) = .ok v) ∧
    (∀ e, pkexecExecute env = .err e →
      ls_with_polkit env = .err "Failed to elevate privileges with polkit.") := by
  refine ⟨?_, ?_, ?_⟩
  · intro v hv
    simp [ls_with_polkit, methods, lsLoop, hv]
  · intro m rest v hv
    simp [lsLoop, hv]
  · intro e he
    simp [ls_with_polkit, methods, lsLoop, he]

theorem polkit_first_success_witness :
    ls_with_polkit ⟨some ⟨true, "a\n".data.map Char.toNat⟩⟩ = Outcome.ok ["a".data] ∧
    ls_with_polkit ⟨none⟩ = Outcome.err "Failed to elevate privileges with polkit." :=
  ⟨(polkit_first_success ⟨some ⟨true, "a\n".data.map Char.toNat⟩⟩).1 ["a".data] (by decide),
   (polkit_first_success ⟨none⟩).2.2 "Failed to elevate privileges with pkexec method." rfl⟩

/-- Claim C9: every strategy failure in ls_with_polkit is discarded and replaced
by one aggregated error, indistinguishable across failure causes. -/
theorem polkit_failures_collapsed (env env2 : PkexecEnv) (e e2 : String)
    (h : pkexecExecute env = .err e) (h2 : pkexecExecute env2 = .err e2) :
    ls_with_polkit env = .err "Failed to elevate privileges with polkit." ∧
    ls_with_polkit env = ls_with_polkit env2 := by
  constructor
  · simp [ls_with_polkit, methods, lsLoop, h]
  · simp [ls_with_polkit, methods, lsLoop, h, h2]

theorem polkit_failures_collapsed_witness :
    ls_with_polkit ⟨none⟩ = Outcome.err "Failed to elevate privileges with polkit." ∧
    ls_with_polkit ⟨none⟩ = ls_with_polkit ⟨some ⟨false, []⟩⟩ :=
  polkit_failures_collapsed ⟨none⟩ ⟨some ⟨false, []⟩⟩
    "Failed to elevate privileges with pkexec method." "Permission Denied" rfl rfl

/-- Claim C10: zero exit status with non-UTF-8 stdout makes the pkexec strategy
return an error, so ls_with_polkit returns the aggregated failure. -/
theorem pkexec_utf8_failure (env : PkexecEnv) (o : ProcOutput)
    (hsp : env.spawn = some o) (hst : o.statusSuccess = true)
    (hu : from_utf8 o.stdout = none) :
    pkexecExecute env = .err utf8ErrMsg ∧
    ls_with_polkit env = .err "Failed to elevate privileges with polkit." := by
  have h1 : pkexecExecute env = .err utf8ErrMsg := by
    simp [pkexecExecute, hsp, hst, hu]
  exact ⟨h1, by simp [ls_with_polkit, methods, lsLoop, h1]⟩

theorem pkexec_utf8_failure_witness :
    pkexecExecute ⟨some ⟨true, [255]⟩⟩ = Outcome.err utf8ErrMsg ∧
    ls_with_polkit ⟨some ⟨true, [255]⟩⟩ =
      Outcome.err "Failed to elevate privileges with polkit." :=
  pkexec_utf8_failure ⟨some ⟨true, [255]⟩⟩ ⟨true, [255]⟩ rfl rfl rfl

/-- Claim C3 (amended): classification of the pkexec strategy, with the success
case conditioned on UTF-8-decodable stdout. -/
theorem pkexec_classification (env : PkexecEnv) :
    (env.spawn = none →
      pkexecExecute env = .err "Failed to elevate privileges with pkexec method.") ∧
    (∀ o : ProcOutput, env.spawn = some o → o.statusSuccess = false →
      pkexecExecute env = .err "Permission Denied") ∧
    (∀ (o : ProcOutput) (s : List Char), env.spawn = some o →
      o.statusSuccess = true → from_utf8 o.stdout = some s →
      pkexecExecute env = .ok (rustLines s)) := by
  refine ⟨?_, ?_, ?_⟩
  · intro hn
    simp [pkexecExecute, hn]
  · intro o hsp hst
    simp [pkexecExecute, hsp, hst]
  · intro o s hsp hst hu
    simp [pkexecExecute, hsp, hst, hu]

/-- Claim C3 counterexample: a zero-status run whose stdout is the single byte 255
is not returned as a success; it yields an error instead. -/
theorem pkexec_nonUtf8_not_success :
    (pkexecExecute ⟨some ⟨true, [255]⟩⟩).isOk = false ∧
    pkexecExecute ⟨some ⟨true, [255]⟩⟩ = Outcome.err utf8ErrMsg := ⟨rfl, rfl⟩

theorem pkexec_classification_witness :
    pkexecExecute ⟨none⟩ = Outcome.err "Failed to elevate privileges with pkexec method." ∧
    pkexecExecute ⟨some ⟨false, []⟩⟩ = Outcome.err "Permission Denied" ∧
    pkexecExecute ⟨some ⟨true, "a\n".data.map Char.toNat⟩⟩ =
      Outcome.ok (rustLines "a\n".data) :=
  ⟨(pkexec_classification ⟨none⟩).1 rfl,
   (pkexec_classification ⟨some ⟨false, []⟩⟩).2.1 ⟨false, []⟩ rfl rfl,
   (pkexec_classification ⟨some ⟨true, "a\n".data.map Char.toNat⟩⟩).2.2
     ⟨true, "a\n".data.map Char.toNat⟩ "a\n".data rfl rfl (by decide)⟩

/-- Claim C1 (amended): ls_with_polkit never aborts; ls_with_sudo does not abort
provided the shell spawns and, when the pipeline succeeds, the temporary
file is readable. -/
theorem no_abort_policy :
    (∀ env : PkexecEnv, (ls_with_polkit env).isFatal = false) ∧
    (∀ (p : List Char) (w : SudoWorld) (sp : SudoSpawn),
      w.sh (sudoCommand p) = some sp →
      (sp.statusSuccess = true → read_to_string sp.resultFile ≠ none) →
      ((ls_with_sudo p w).fst).isFatal = false) := by
  constructor
  · intro env
    obtain ⟨s⟩ := env
    match s with
    | none => rfl
    | some o =>
      obtain ⟨b, bytes⟩ := o
      match b with
      | false => rfl
      | true =>
        cases hu : from_utf8 bytes with
        | none =>
          simp [ls_with_polkit, methods, lsLoop, pkexecExecute, hu, Outcome.isFatal]
        | some s =>
          simp [ls_with_polkit, methods, lsLoop, pkexecExecute, hu, Outcome.isFatal]
  · intro p w sp hsp hread
    obtain ⟨b, f⟩ := sp
    match b with
    | false =>
      simp [ls_with_sudo, sudoExecute, sudoAfterSpawn, hsp, mapErrSudo, Outcome.isFatal]
    | true =>
      cases hr : read_to_string f with
      | none => exact absurd hr (hread rfl)
      | some s =>
        simp [ls_with_sudo, sudoExecute, sudoAfterSpawn, hsp, hr, mapErrSudo, Outcome.isFatal]

/-- Claim C1 counterexample: in a world where the shell cannot be spawned,
ls_with_sudo aborts (the `expect` panic) instead of returning an error. -/
theorem lsWithSudo_aborts_on_spawn_failure :
    (ls_with_sudo [] ⟨fun _ => none, none⟩).fst =
      Outcome.fatal "Failed to elevate privileges with sudo." ∧
    ((ls_with_sudo [] ⟨fun _ => none, none⟩).fst).isFatal = true := ⟨rfl, rfl⟩

theorem no_abort_policy_witness :
    (ls_with_polkit ⟨none⟩).isFatal = false ∧
    ((ls_with_sudo ['x'] ⟨fun _ => some ⟨false, none⟩, none⟩).fst).isFatal = false :=
  ⟨no_abort_policy.1 ⟨none⟩,
   no_abort_policy.2 ['x'] ⟨fun _ => some ⟨false, none⟩, none⟩ ⟨false, none⟩ rfl
     (fun hb => absurd hb Bool.false_ne_true)⟩

/-- Claim C4: sudo path under a spawnable shell: pipeline success reads the file
and returns its lines; pipeline failure returns the classified error
without reading the file. -/
theorem sudo_pipeline_result (p : List Char) (w : SudoWorld) (sp : SudoSpawn)
    (hsp : w.sh (sudoCommand p) = some sp) :
    (sp.statusSuccess = true → ∀ s, read_to_string sp.resultFile = some s →
      (ls_with_sudo p w).fst = .ok (rustLines s)) ∧
    (sp.statusSuccess = false →
      (ls_with_sudo p w).fst = .err "Failed to elevate privileges with sudo." ∧
      (sudoExecute p w).fst = .err "Password required" ∧
      ∀ f, (sudoAfterSpawn (some ⟨false, f⟩) w.preFile).fst = .err "Password required") := by
  constructor
  · intro hst s hr
    simp [ls_with_sudo, sudoExecute, sudoAfterSpawn, hsp, hst, hr, mapErrSudo]
  · intro hst
    refine ⟨?_, ?_, ?_⟩
    · simp [ls_with_sudo, sudoExecute, sudoAfterSpawn, hsp, hst, mapErrSudo]
    · simp [sudoExecute, sudoAfterSpawn, hsp, hst]
    · intro f
      simp [sudoAfterSpawn]

theorem sudo_pipeline_result_witness :
    (ls_with_sudo [] ⟨fun _ => some ⟨true, some ("a\n".data.map Char.toNat)⟩, none⟩).fst =
      Outcome.ok (rustLines "a\n".data) ∧
    (ls_with_sudo [] ⟨fun _ => some ⟨false, none⟩, none⟩).fst =
      Outcome.err "Failed to elevate privileges with sudo." :=
  ⟨(sudo_pipeline_result [] ⟨fun _ => some ⟨true, some ("a\n".data.map Char.toNat)⟩, none⟩
      ⟨true, some ("a\n".data.map Char.toNat)⟩ rfl).1 rfl "a\n".data (by decide),
   ((sudo_pipeline_result [] ⟨fun _ => some ⟨false, none⟩, none⟩
      ⟨false, none⟩ rfl).2 rfl).1⟩

/-- Claim C5: the password — any string, the empty one included — is embedded
verbatim into the pipeline string, and execution always proceeds to the
spawn of that exact command: no validation rejects any password. -/
theorem sudo_password_verbatim (p : List Char) (w : SudoWorld) :
    sudoCommand p =
      "echo ".data ++ p ++ " | sudo -S ls -la /root > /tmp/result.txt".data ∧
    sudoExecute p w =
      sudoAfterSpawn
        (w.sh ("echo ".data ++ p ++ " | sudo -S ls -la /root > /tmp/result.txt".data))
        w.preFile := by
  constructor
  · simp [sudoCommand, echo_cmd, List.append_assoc]
  · rw [sudoExecute, sudoCommand, echo_cmd, List.append_assoc]

theorem sudo_password_verbatim_witness :
    sudoCommand [] =
      "echo ".data ++ ([] : List Char) ++ " | sudo -S ls -la /root > /tmp/result.txt".data :=
  (sudo_password_verbatim [] ⟨fun _ => none, none⟩).1

/-- Claim C7: ls_with_sudo never removes the temporary file: on every completed
path its final state is exactly what the pipeline left there. -/
theorem sudo_tmpfile_left (p : List Char) (w : SudoWorld) (sp : SudoSpawn)
    (hsp : w.sh (sudoCommand p) = some sp) :
    (sudoExecute p w).snd = sp.resultFile ∧
    (ls_with_sudo p w).snd = sp.resultFile ∧
    (∀ c, sp.resultFile = some c → (ls_with_sudo p w).snd = some c) := by
  obtain ⟨b, f⟩ := sp
  have h1 : (sudoExecute p w).snd = f := by
    match b with
    | false => simp [sudoExecute, sudoAfterSpawn, hsp]
    | true =>
      cases hr : read_to_string f with
      | none => simp [sudoExecute, sudoAfterSpawn, hsp, hr]
      | some s => simp [sudoExecute, sudoAfterSpawn, hsp, hr]
  refine ⟨h1, ?_, ?_⟩
  · simp [ls_with_sudo, h1]
  · intro c hc
    simp only [ls_with_sudo, h1]
    exact hc

theorem sudo_tmpfile_left_witness :
    (ls_with_sudo [] ⟨fun _ => some ⟨false, some [65]⟩, none⟩).snd = some [65] :=
  ((sudo_tmpfile_left [] ⟨fun _ => some ⟨false, some [65]⟩, none⟩
    ⟨false, some [65]⟩ rfl).2.2) [65] rfl

/-- Claim C8: rust_release_mode is the negation of the debug-assertions flag, and
two calls under the same build configuration return the same value. -/
theorem rust_release_mode_spec (c : BuildConfig) :
    rust_release_mode c = !c.debugAssertions ∧
    (∀ c2 : BuildConfig, c2.debugAssertions = c.debugAssertions →
      rust_release_mode c2 = rust_release_mode c) := by
  refine ⟨rfl, ?_⟩
  intro c2 h
  simp [rust_release_mode, h]

theorem rust_release_mode_spec_witness :
    rust_release_mode ⟨false⟩ = !false ∧
    rust_release_mode ⟨false⟩ = rust_release_mode ⟨false⟩ :=
  ⟨(rust_release_mode_spec ⟨false⟩).1, (rust_release_mode_spec ⟨false⟩).2 ⟨false⟩ rfl⟩
